import Mathlib

/-!
Shallow embedding of `src/lambda_function.py`, an AWS-Lex dialog-fulfillment
handler for a portfolio recommendation bot, together with proofs of the
specification claims about it.

Modelling conventions:
* Python numeric values produced by `int(...)` / `float(...)` are modelled by
  `PyNum`: a finite rational, positive/negative infinity, or NaN.  Comparisons
  against NaN are `false`, matching IEEE-754 / Python semantics.
* `int(s)` / `float(s)` string parsing is modelled by `pyIntOfString` /
  `pyFloatOfString` returning `Option`: `none` models a raised `ValueError`.
  The model covers optional surrounding whitespace, an optional sign, decimal
  digits, for floats also a fractional part, an exponent part and the
  `inf` / `infinity` / `nan` literals (case-insensitive).  Underscore digit
  grouping and non-ASCII digits accepted by CPython are not modelled.
* Python dicts used as slot mappings are association lists looked up by first
  key occurrence; a missing key raises `KeyError`, modelled with `Except`.
* Raised exceptions are modelled by the `Except PyError` monad.
-/

/-- A Python numeric value as produced by `int(...)` or `float(...)`:
either a finite number, an infinity, or NaN. -/
inductive PyNum where
  | ratv (q : ℚ)
  | inf
  | ninf
  | nan
deriving DecidableEq, Repr

/-- Python `x <= c` for a numeric `x` and finite constant `c`;
NaN compares false. -/
def pyLe : PyNum → ℚ → Bool
  | .ratv q, c => q ≤ c
  | .inf, _ => false
  | .ninf, _ => true
  | .nan, _ => false

/-- Python `x >= c` for a numeric `x` and finite constant `c`;
NaN compares false. -/
def pyGe : PyNum → ℚ → Bool
  | .ratv q, c => c ≤ q
  | .inf, _ => true
  | .ninf, _ => false
  | .nan, _ => false

/-- Python `x < c` for a numeric `x` and finite constant `c`;
NaN compares false. -/
def pyLt : PyNum → ℚ → Bool
  | .ratv q, c => q < c
  | .inf, _ => false
  | .ninf, _ => true
  | .nan, _ => false

/-- Numeric value of a digit run (most significant first). -/
def digitsVal (cs : List Char) : ℕ :=
  cs.foldl (fun acc c => acc * 10 + (c.toNat - ('0').toNat)) 0

/-- A nonempty all-digit run parsed to a natural number, else `none`. -/
def digitsNat (cs : List Char) : Option ℕ :=
  if cs ≠ [] ∧ cs.all Char.isDigit then some (digitsVal cs) else none

/-- Strip leading and trailing whitespace from a character list, as Python
`int` / `float` do before parsing. -/
def stripWs (cs : List Char) : List Char :=
  ((cs.dropWhile Char.isWhitespace).reverse.dropWhile Char.isWhitespace).reverse

/-- Split an optional leading `+` / `-` sign; `true` means negative. -/
def splitSign : List Char → Bool × List Char
  | '+' :: rest => (false, rest)
  | '-' :: rest => (true, rest)
  | cs => (false, cs)

/-- Model of Python `int(s)` on a string argument: optional surrounding
whitespace, optional sign, nonempty decimal digit run.  `none` models a
raised `ValueError`. -/
def pyIntOfString (s : String) : Option ℤ :=
  let (neg, body) := splitSign (stripWs s.toList)
  (digitsNat body).map (fun n => if neg then -(n : ℤ) else (n : ℤ))

/-- Mantissa of a float literal: `digits`, `digits.digits`, `digits.` or
`.digits`, with at least one digit in total. -/
def floatMantissa (cs : List Char) : Option ℚ :=
  let ip := cs.takeWhile Char.isDigit
  match cs.dropWhile Char.isDigit with
  | [] => (digitsNat ip).map (fun n => (n : ℚ))
  | '.' :: fp =>
    if fp.all Char.isDigit ∧ (ip ≠ [] ∨ fp ≠ []) then
      some ((digitsVal ip : ℚ) + (digitsVal fp : ℚ) / (10 : ℚ) ^ fp.length)
    else none
  | _ => none

/-- Apply a decimal exponent to a rational mantissa. -/
def applyExp (m : ℚ) (e : ℤ) : ℚ :=
  if 0 ≤ e then m * (10 : ℚ) ^ e.toNat else m / (10 : ℚ) ^ (-e).toNat

/-- A signed nonempty digit run (the exponent part of a float literal). -/
def signedDigits (cs : List Char) : Option ℤ :=
  let (neg, body) := splitSign cs
  (digitsNat body).map (fun n => if neg then -(n : ℤ) else (n : ℤ))

/-- Finite decimal part of a float literal: mantissa with an optional
`e` / `E` exponent part. -/
def floatDecimal (cs : List Char) : Option ℚ :=
  let mant := cs.takeWhile (fun c => c ≠ 'e' ∧ c ≠ 'E')
  match cs.dropWhile (fun c => c ≠ 'e' ∧ c ≠ 'E') with
  | [] => floatMantissa mant
  | _ :: ex => do
    let m ← floatMantissa mant
    let e ← signedDigits ex
    some (applyExp m e)

/-- Model of Python `float(s)` on a string argument: optional surrounding
whitespace, optional sign, then an `inf` / `infinity` / `nan` literal or a
decimal literal with optional exponent.  `none` models a raised
`ValueError`. -/
def pyFloatOfString (s : String) : Option PyNum :=
  let (neg, body) := splitSign (stripWs s.toList)
  let lower := String.mk (body.map Char.toLower)
  if lower = "inf" ∨ lower = "infinity" then
    some (if neg then .ninf else .inf)
  else if lower = "nan" then
    some .nan
  else
    (floatDecimal body).map (fun q => .ratv (if neg then -q else q))

/-- `parse_int` from the source: `int(n)`, returning `float("nan")` when a
`ValueError` is raised. -/
def parse_int (n : String) : PyNum :=
  match pyIntOfString n with
  | some i => .ratv (i : ℚ)
  | none => .nan

/-- `parse_float` from the source: `float(n)`, returning `float("nan")` when
a `ValueError` is raised. -/
def parse_float (n : String) : PyNum :=
  match pyFloatOfString n with
  | some v => v
  | none => .nan

/-- A Lex message dict `{"contentType": ..., "content": ...}`. -/
structure Message where
  contentType : String
  content : String
deriving DecidableEq, Repr

/-- A validation result dict; `message := none` models the dict built
without a `"message"` key. -/
structure ValidationResult where
  isValid : Bool
  violatedSlot : Option String
  message : Option Message
deriving DecidableEq, Repr

/-- `build_validation_result` from the source. -/
def build_validation_result (is_valid : Bool) (violated_slot : Option String)
    (message_content : Option String) : ValidationResult :=
  match message_content with
  | none => { isValid := is_valid, violatedSlot := violated_slot, message := none }
  | some c =>
    { isValid := is_valid, violatedSlot := violated_slot,
      message := some { contentType := "PlainText", content := c } }

/-- The slots dict: an association list from slot name to optional string
value, looked up by first occurrence. -/
def SlotMap : Type := List (String × Option String)

instance : DecidableEq SlotMap := by
  unfold SlotMap; infer_instance

instance : Repr SlotMap := by
  unfold SlotMap; infer_instance

/-- Python dict read `m[k]` on the slots dict, as an `Option`. -/
def lookupSlot (m : SlotMap) (k : String) : Option (Option String) :=
  match m with
  | [] => none
  | (k', v) :: rest => if k' = k then some v else lookupSlot rest k

/-- Python dict write `m[k] = v`: replace the first binding of `k`, or
append a new binding. -/
def setSlot (m : SlotMap) (k : String) (v : Option String) : SlotMap :=
  match m with
  | [] => [(k, v)]
  | (k', v') :: rest => if k' = k then (k, v) :: rest else (k', v') :: setSlot rest k v

/-- A Python exception: `KeyError(key)` or `Exception(message)`. -/
inductive PyError where
  | keyError (key : String)
  | exception (msg : String)
deriving DecidableEq, Repr

/-- Python dict read `m[k]`, raising `KeyError` when the key is absent. -/
def dictGet (m : SlotMap) (k : String) : Except PyError (Option String) :=
  match lookupSlot m k with
  | some v => .ok v
  | none => .error (.keyError k)

/-- The `currentIntent` part of the event: `name` and `slots`. -/
structure CurrentIntent where
  name : String
  slots : SlotMap
deriving DecidableEq, Repr

/-- The fields of the incoming event the handler consumes. -/
structure IntentRequest where
  currentIntent : CurrentIntent
  invocationSource : String
  sessionAttributes : List (String × String)
deriving DecidableEq, Repr

/-- `get_slots` from the source. -/
def get_slots (intent_request : IntentRequest) : SlotMap :=
  intent_request.currentIntent.slots

/-- The `dialogAction` part of a response: one of the three shapes. -/
inductive DialogAction where
  | elicitSlot (intentName : String) (slots : SlotMap) (slotToElicit : String)
      (message : Message)
  | delegateAction (slots : SlotMap)
  | closeAction (fulfillmentState : String) (message : Message)
deriving DecidableEq, Repr

/-- A handler response: `sessionAttributes` plus a dialog action. -/
structure Response where
  sessionAttributes : List (String × String)
  dialogAction : DialogAction
deriving DecidableEq, Repr

/-- `elicit_slot` from the source. -/
def elicit_slot (session_attributes : List (String × String)) (intent_name : String)
    (slots : SlotMap) (slot_to_elicit : String) (message : Message) : Response :=
  { sessionAttributes := session_attributes,
    dialogAction := .elicitSlot intent_name slots slot_to_elicit message }

/-- `delegate` from the source. -/
def delegate (session_attributes : List (String × String)) (slots : SlotMap) :
    Response :=
  { sessionAttributes := session_attributes,
    dialogAction := .delegateAction slots }

/-- `close` from the source. -/
def close (session_attributes : List (String × String)) (fulfillment_state : String)
    (message : Message) : Response :=
  { sessionAttributes := session_attributes,
    dialogAction := .closeAction fulfillment_state message }

/-- The fixed age re-prompt message content (two adjacent Python string
literals, concatenated). -/
def ageMessageContent : String :=
  "You should be at least 1 and below 65 years old. Please provide a different age."

/-- The fixed investment-amount re-prompt message content. -/
def amountMessageContent : String :=
  "The amount to convert should be at least $5000. Please provide an amount of at least $5000."

/-- The second `if` block of `validate_data`: the investment-amount check
and the final valid result. -/
def validate_amount (investment_amount : Option String) : ValidationResult :=
  match investment_amount with
  | some s =>
    if pyLt (parse_float s) 5000 then
      build_validation_result false (some "investmentAmount") (some amountMessageContent)
    else
      build_validation_result true none none
  | none => build_validation_result true none none

/-- `validate_data` from the source: the age check (early return on
violation), then the investment-amount check, then the valid result. -/
def validate_data (age investment_amount : Option String)
    (_intent_request : IntentRequest) : ValidationResult :=
  match age with
  | some a =>
    if pyLe (parse_int a) 0 || pyGe (parse_int a) 65 then
      build_validation_result false (some "age") (some ageMessageContent)
    else
      validate_amount investment_amount
  | none => validate_amount investment_amount

/-- The default recommendation (the `"None"` case, also the `dict.get`
fallback). -/
def defaultRecommendation : String := "100% bonds (AGG), 0% equities (SPY)"

/-- `get_initial_recommendation` from the source: `dict.get` on the
six-entry table with the `"None"` value as default.  The argument is the
`riskLevel` slot value, which may be null. -/
def get_initial_recommendation (risk_level : Option String) : String :=
  match risk_level with
  | none => defaultRecommendation
  | some s =>
    if s = "None" then "100% bonds (AGG), 0% equities (SPY)"
    else if s = "Very Low" then "80% bonds (AGG), 20% equities (SPY)"
    else if s = "Low" then "60% bonds (AGG), 40% equities (SPY)"
    else if s = "Medium" then "40% bonds (AGG), 60% equities (SPY)"
    else if s = "High" then "20% bonds (AGG), 80% equities (SPY)"
    else if s = "Very High" then "0% bonds (AGG), 100% equities (SPY)"
    else defaultRecommendation

/-- Python `str(x)` on an optional string slot value: `None` prints as
`"None"` under `str.format`. -/
def pyFormatOpt : Option String → String
  | none => "None"
  | some s => s

/-- The fulfillment message content: the triple-quoted template with
`first_name` and the recommendation substituted by `str.format`. -/
def closeContent (first_name : Option String) (initial_recommendation : String) :
    String :=
  pyFormatOpt first_name ++
    " thank you for your information;\n            based on the risk level you defined, my recommendation is to choose an investment portfolio with "
    ++ initial_recommendation ++ "\n            "

/-- `recommend_portfolio` from the source.  Slot reads are Python dict
subscripts, raising `KeyError` in source order when a key is absent.  In the
invalid-validation branch the violated slot is cleared and an ElicitSlot
response returned; `validate_data` only ever produces invalid results with
both a violated slot and a message, so the fallback arm (a `KeyError` on the
absent `"message"` key of a valid-shaped dict) is unreachable. -/
def recommend_portfolio (intent_request : IntentRequest) : Except PyError Response :=
  let slots := get_slots intent_request
  match dictGet slots "firstName", dictGet slots "age",
      dictGet slots "investmentAmount", dictGet slots "riskLevel" with
  | .error e, _, _, _ => .error e
  | _, .error e, _, _ => .error e
  | _, _, .error e, _ => .error e
  | _, _, _, .error e => .error e
  | .ok first_name, .ok age, .ok investment_amount, .ok risk_level =>
    if intent_request.invocationSource = "DialogCodeHook" then
      let validation_result := validate_data age investment_amount intent_request
      if validation_result.isValid = false then
        match validation_result.violatedSlot, validation_result.message with
        | some violated, some msg =>
          .ok (elicit_slot intent_request.sessionAttributes
            intent_request.currentIntent.name
            (setSlot slots violated none) violated msg)
        | _, _ => .error (.keyError "message")
      else
        .ok (delegate intent_request.sessionAttributes slots)
    else
      let initial_recommendation := get_initial_recommendation risk_level
      .ok (close intent_request.sessionAttributes "Fulfilled"
        { contentType := "PlainText",
          content := closeContent first_name initial_recommendation })

/-- `dispatch` from the source: exact-match routing on the intent name,
raising `Exception` for any other name. -/
def dispatch (intent_request : IntentRequest) : Except PyError Response :=
  let intent_name := intent_request.currentIntent.name
  if intent_name = "RecommendPortfolio" then
    recommend_portfolio intent_request
  else
    .error (.exception ("Intent with name " ++ intent_name ++ " not supported"))

/-- `lambda_handler` from the source: routes the event; the context
argument is unused. -/
def lambda_handler (event : IntentRequest) (_context : Unit) : Except PyError Response :=
  dispatch event

/-! ### Helper lemmas -/

/-- The age violation result `validate_data` builds. -/
def ageViolation : ValidationResult :=
  build_validation_result false (some "age") (some ageMessageContent)

/-- The investment-amount violation result `validate_data` builds. -/
def amountViolation : ValidationResult :=
  build_validation_result false (some "investmentAmount") (some amountMessageContent)

lemma validate_amount_cases (amt : Option String) :
    validate_amount amt = build_validation_result true none none ∨
    validate_amount amt = amountViolation := by
  cases amt with
  | none => exact Or.inl rfl
  | some s =>
    by_cases hlt : pyLt (parse_float s) 5000
    · exact Or.inr (by simp [validate_amount, hlt, amountViolation])
    · exact Or.inl (by simp [validate_amount, hlt])

lemma validate_data_cases (age amt : Option String) (ev : IntentRequest) :
    validate_data age amt ev = build_validation_result true none none ∨
    validate_data age amt ev = ageViolation ∨
    validate_data age amt ev = amountViolation := by
  cases age with
  | none =>
    rcases validate_amount_cases amt with h | h
    · exact Or.inl (by simpa [validate_data] using h)
    · exact Or.inr (Or.inr (by simpa [validate_data] using h))
  | some a =>
    by_cases hage : (pyLe (parse_int a) 0 || pyGe (parse_int a) 65) = true
    · exact Or.inr (Or.inl (by simp [validate_data, hage, ageViolation]))
    · rcases validate_amount_cases amt with h | h
      · exact Or.inl (by simp [validate_data, hage, h])
      · exact Or.inr (Or.inr (by simp [validate_data, hage, h]))

lemma validate_data_invalid_shape (age amt : Option String) (ev : IntentRequest)
    (h : (validate_data age amt ev).isValid = false) :
    validate_data age amt ev = ageViolation ∨
    validate_data age amt ev = amountViolation := by
  rcases validate_data_cases age amt ev with hv | hv | hv
  · rw [hv] at h; simp [build_validation_result] at h
  · exact Or.inl hv
  · exact Or.inr hv

lemma lookupSlot_setSlot_self (m : SlotMap) (k : String) (v : Option String) :
    lookupSlot (setSlot m k v) k = some v := by
  induction m with
  | nil => simp [setSlot, lookupSlot]
  | cons p rest ih =>
    by_cases hk : p.1 = k
    · simp [setSlot, hk, lookupSlot]
    · simp [setSlot, hk, lookupSlot, ih]

lemma lookupSlot_setSlot_ne (m : SlotMap) (k k' : String) (v : Option String)
    (h : k' ≠ k) :
    lookupSlot (setSlot m k v) k' = lookupSlot m k' := by
  have h1 : ¬ k = k' := fun hh => h hh.symm
  induction m with
  | nil => simp [setSlot, lookupSlot, h1]
  | cons p rest ih =>
    obtain ⟨a, b⟩ := p
    by_cases hk : a = k
    · subst hk
      simp [setSlot, lookupSlot, h1]
    · simp [setSlot, hk, lookupSlot, ih]

/-- The body of `recommend_portfolio` after the four slot reads succeed
(the `validation_result` local of the source is written out in full). -/
def recommend_portfolio_core (intent_request : IntentRequest)
    (first_name age investment_amount risk_level : Option String) :
    Except PyError Response :=
  if intent_request.invocationSource = "DialogCodeHook" then
    if (validate_data age investment_amount intent_request).isValid = false then
      match (validate_data age investment_amount intent_request).violatedSlot,
          (validate_data age investment_amount intent_request).message with
      | some violated, some msg =>
        .ok (elicit_slot intent_request.sessionAttributes
          intent_request.currentIntent.name
          (setSlot (get_slots intent_request) violated none) violated msg)
      | _, _ => .error (.keyError "message")
    else
      .ok (delegate intent_request.sessionAttributes (get_slots intent_request))
  else
    .ok (close intent_request.sessionAttributes "Fulfilled"
      { contentType := "PlainText",
        content := closeContent first_name (get_initial_recommendation risk_level) })

lemma recommend_portfolio_eq_core (ev : IntentRequest)
    (fn age amt rl : Option String)
    (h1 : lookupSlot (get_slots ev) "firstName" = some fn)
    (h2 : lookupSlot (get_slots ev) "age" = some age)
    (h3 : lookupSlot (get_slots ev) "investmentAmount" = some amt)
    (h4 : lookupSlot (get_slots ev) "riskLevel" = some rl) :
    recommend_portfolio ev = recommend_portfolio_core ev fn age amt rl := by
  simp [recommend_portfolio, recommend_portfolio_core, dictGet, h1, h2, h3, h4]

/-- A concrete event used to instantiate hypothesis-bearing theorems. -/
def sampleReq : IntentRequest :=
  { currentIntent := { name := "RecommendPortfolio", slots := [] },
    invocationSource := "DialogCodeHook",
    sessionAttributes := [] }

/-! ### Claims -/

/-- C3: a string rejected by numeric parsing makes `parse_int` /
`parse_float` return the NaN sentinel rather than raising; all comparisons
against NaN are false, so `validate_data` treats an unparsable age or
investment amount exactly as if the slot carried a passing value: the
corresponding range check is bypassed and that slot is never reported as
the violation. -/
theorem spec_c3_unparsable_fails_open :
    (∀ s : String, pyIntOfString s = none → parse_int s = PyNum.nan) ∧
    (∀ s : String, pyFloatOfString s = none → parse_float s = PyNum.nan) ∧
    (∀ q : ℚ, pyLe PyNum.nan q = false ∧ pyGe PyNum.nan q = false ∧
      pyLt PyNum.nan q = false) ∧
    (∀ (a : String) (amt : Option String) (ev : IntentRequest),
      pyIntOfString a = none →
      validate_data (some a) amt ev = validate_data none amt ev ∧
      (validate_data (some a) amt ev).violatedSlot ≠ some "age") ∧
    (∀ (age : Option String) (s : String) (ev : IntentRequest),
      pyFloatOfString s = none →
      validate_data age (some s) ev = validate_data age none ev ∧
      (validate_data age (some s) ev).violatedSlot ≠ some "investmentAmount") := by
  refine ⟨?_, ?_, ?_, ?_, ?_⟩
  · intro s h; simp [parse_int, h]
  · intro s h; simp [parse_float, h]
  · intro q; exact ⟨rfl, rfl, rfl⟩
  · intro a amt ev h
    have hp : parse_int a = PyNum.nan := by simp [parse_int, h]
    have heq : validate_data (some a) amt ev = validate_amount amt := by
      simp [validate_data, hp, pyLe, pyGe]
    refine ⟨heq, ?_⟩
    rw [heq]
    rcases validate_amount_cases amt with hv | hv <;>
      rw [hv] <;>
      simp [build_validation_result, amountViolation]
  · intro age s ev h
    have hp : parse_float s = PyNum.nan := by simp [parse_float, h]
    have hamt : validate_amount (some s) = validate_amount none := by
      simp [validate_amount, hp, pyLt]
    cases age with
    | none =>
      refine ⟨hamt, ?_⟩
      show (validate_amount (some s)).violatedSlot ≠ some "investmentAmount"
      rw [hamt]
      simp [validate_amount, build_validation_result]
    | some a =>
      by_cases hage : (pyLe (parse_int a) 0 || pyGe (parse_int a) 65) = true
      · refine ⟨by simp [validate_data, hage], ?_⟩
        simp [validate_data, hage, build_validation_result]
      · refine ⟨by simp [validate_data, hage, hamt], ?_⟩
        simp [validate_data, hage, validate_amount, hp, pyLt,
          build_validation_result]

/-- Witness for C3 at concrete unparsable inputs. -/
theorem spec_c3_witness :
    parse_int "abc" = PyNum.nan ∧
    parse_float "12x" = PyNum.nan ∧
    validate_data (some "abc") (some "3000") sampleReq =
      validate_data none (some "3000") sampleReq ∧
    (validate_data (some "oops") (some "1000000") sampleReq).violatedSlot ≠
      some "age" ∧
    (validate_data (some "30") (some "junk") sampleReq).violatedSlot ≠
      some "investmentAmount" :=
  ⟨spec_c3_unparsable_fails_open.1 "abc" (by decide),
   spec_c3_unparsable_fails_open.2.1 "12x" (by decide),
   (spec_c3_unparsable_fails_open.2.2.2.1 "abc" (some "3000") sampleReq
     (by decide)).1,
   (spec_c3_unparsable_fails_open.2.2.2.1 "oops" (some "1000000") sampleReq
     (by decide)).2,
   (spec_c3_unparsable_fails_open.2.2.2.2 (some "30") "junk" sampleReq
     (by decide)).2⟩

/-- C4: `get_initial_recommendation` is total: each of the six recognized
risk labels maps to its fixed allocation string, and every other input,
including a null label, maps to the `"None"` default
`"100% bonds (AGG), 0% equities (SPY)"`. -/
theorem spec_c4_recommendation_total :
    (get_initial_recommendation (some "None") =
        "100% bonds (AGG), 0% equities (SPY)" ∧
      get_initial_recommendation (some "Very Low") =
        "80% bonds (AGG), 20% equities (SPY)" ∧
      get_initial_recommendation (some "Low") =
        "60% bonds (AGG), 40% equities (SPY)" ∧
      get_initial_recommendation (some "Medium") =
        "40% bonds (AGG), 60% equities (SPY)" ∧
      get_initial_recommendation (some "High") =
        "20% bonds (AGG), 80% equities (SPY)" ∧
      get_initial_recommendation (some "Very High") =
        "0% bonds (AGG), 100% equities (SPY)") ∧
    ∀ r : Option String,
      r ∉ ([some "None", some "Very Low", some "Low", some "Medium",
        some "High", some "Very High"] : List (Option String)) →
      get_initial_recommendation r = "100% bonds (AGG), 0% equities (SPY)" := by
  refine ⟨by decide, ?_⟩
  intro r hr
  rcases r with _ | s
  · rfl
  · simp only [List.mem_cons, List.not_mem_nil, or_false, not_or,
      Option.some.injEq] at hr
    obtain ⟨h1, h2, h3, h4, h5, h6⟩ := hr
    simp [get_initial_recommendation, defaultRecommendation, h1, h2, h3, h4,
      h5, h6]

/-- Witness for C4 at a null and an unrecognized label. -/
theorem spec_c4_witness :
    get_initial_recommendation none = "100% bonds (AGG), 0% equities (SPY)" ∧
    get_initial_recommendation (some "Aggressive") =
      "100% bonds (AGG), 0% equities (SPY)" :=
  ⟨spec_c4_recommendation_total.2 none (by decide),
   spec_c4_recommendation_total.2 (some "Aggressive") (by decide)⟩

lemma validate_amount_violated_inv (amt : Option String)
    (h : (validate_amount amt).violatedSlot = some "investmentAmount") :
    ∃ s, amt = some s ∧ pyLt (parse_float s) 5000 = true := by
  cases amt with
  | none => simp [validate_amount, build_validation_result] at h
  | some s =>
    by_cases hlt : pyLt (parse_float s) 5000
    · exact ⟨s, rfl, hlt⟩
    · simp [validate_amount, hlt, build_validation_result] at h

/-- C1: `validate_data` reports only the first violated condition, checking
age before investment amount: a present age parsing to an integer outside
(0, 65) yields the age violation with the fixed re-prompt message no matter
the amount; an amount parsing below 5000 yields the amount violation when
the age check does not fire; and the amount violation can only arise when
age is absent or its check passes (per C3, an unparsable age also passes)
and the amount is present and parses below 5000. -/
theorem spec_c1_first_violation_order :
    (∀ (a : String) (n : ℤ) (amt : Option String) (ev : IntentRequest),
      pyIntOfString a = some n → (n ≤ 0 ∨ 65 ≤ n) →
      validate_data (some a) amt ev = ageViolation) ∧
    (∀ (age : Option String) (s : String) (v : PyNum) (ev : IntentRequest),
      (age = none ∨ ∃ (a : String) (n : ℤ), age = some a ∧
        pyIntOfString a = some n ∧ 0 < n ∧ n < 65) →
      pyFloatOfString s = some v → pyLt v 5000 = true →
      validate_data age (some s) ev = amountViolation) ∧
    (∀ (age amt : Option String) (ev : IntentRequest),
      (validate_data age amt ev).violatedSlot = some "investmentAmount" →
      (age = none ∨ ∃ a : String, age = some a ∧
        pyLe (parse_int a) 0 = false ∧ pyGe (parse_int a) 65 = false) ∧
      ∃ s : String, amt = some s ∧ pyLt (parse_float s) 5000 = true) := by
  refine ⟨?_, ?_, ?_⟩
  · intro a n amt ev hn hcase
    have hp : parse_int a = .ratv (n : ℚ) := by simp [parse_int, hn]
    have hcond : (pyLe (parse_int a) 0 || pyGe (parse_int a) 65) = true := by
      rw [hp]
      rcases hcase with h | h
      · have hq : (n : ℚ) ≤ 0 := by exact_mod_cast h
        simp [pyLe, hq]
      · have hq : (65 : ℚ) ≤ (n : ℚ) := by exact_mod_cast h
        simp [pyGe, hq]
    simp [validate_data, hcond, ageViolation]
  · intro age s v ev hage hs hlt
    have hpf : parse_float s = v := by simp [parse_float, hs]
    have hamt : validate_amount (some s) = amountViolation := by
      simp [validate_amount, hpf, hlt, amountViolation]
    rcases hage with h | ⟨a, n, ha, hn, h0, h65⟩
    · subst h
      simpa [validate_data] using hamt
    · subst ha
      have hp : parse_int a = .ratv (n : ℚ) := by simp [parse_int, hn]
      have hq0 : (0 : ℚ) < (n : ℚ) := by exact_mod_cast h0
      have hq65 : (n : ℚ) < 65 := by exact_mod_cast h65
      have hc1 : pyLe (parse_int a) 0 = false := by
        simp only [hp, pyLe, decide_eq_false_iff_not, not_le]
        exact hq0
      have hc2 : pyGe (parse_int a) 65 = false := by
        simp only [hp, pyGe, decide_eq_false_iff_not, not_le]
        exact hq65
      simp [validate_data, hc1, hc2, hamt]
  · intro age amt ev h
    cases age with
    | none =>
      have h2 : (validate_amount amt).violatedSlot = some "investmentAmount" := h
      exact ⟨Or.inl rfl, validate_amount_violated_inv amt h2⟩
    | some a =>
      by_cases hage : (pyLe (parse_int a) 0 || pyGe (parse_int a) 65) = true
      · exfalso
        have heq : validate_data (some a) amt ev = ageViolation := by
          simp [validate_data, hage, ageViolation]
        rw [heq] at h
        simp [ageViolation, build_validation_result] at h
      · simp only [Bool.or_eq_true, not_or, Bool.not_eq_true] at hage
        have heq : validate_data (some a) amt ev = validate_amount amt := by
          simp [validate_data, hage.1, hage.2]
        rw [heq] at h
        exact ⟨Or.inr ⟨a, rfl, hage.1, hage.2⟩,
          validate_amount_violated_inv amt h⟩

/-- Witness for C1: age 70 beats a huge amount; amount 3000 is reported
with age absent and with age 30; the inverse direction at a concrete
invalid-amount call. -/
theorem spec_c1_witness :
    validate_data (some "70") (some "99999") sampleReq = ageViolation ∧
    validate_data none (some "3000") sampleReq = amountViolation ∧
    validate_data (some "30") (some "3000") sampleReq = amountViolation ∧
    ((some "44" : Option String) = none ∨ ∃ a : String, some "44" = some a ∧
      pyLe (parse_int a) 0 = false ∧ pyGe (parse_int a) 65 = false) ∧
    ∃ s : String, (some "1000" : Option String) = some s ∧
      pyLt (parse_float s) 5000 = true :=
  ⟨spec_c1_first_violation_order.1 "70" 70 (some "99999") sampleReq
     (by decide) (by decide),
   spec_c1_first_violation_order.2.1 none "3000" (.ratv 3000) sampleReq
     (Or.inl rfl) (by decide) (by decide),
   spec_c1_first_violation_order.2.1 (some "30") "3000" (.ratv 3000) sampleReq
     (Or.inr ⟨"30", 30, rfl, by decide, by decide, by decide⟩)
     (by decide) (by decide),
   (spec_c1_first_violation_order.2.2 (some "44") (some "1000") sampleReq
     (by decide)).1,
   (spec_c1_first_violation_order.2.2 (some "44") (some "1000") sampleReq
     (by decide)).2⟩

lemma pyLt_eq_false_of_pyGe (v : PyNum) (c : ℚ) (h : pyGe v c = true) :
    pyLt v c = false := by
  cases v with
  | ratv q =>
    simp only [pyGe, decide_eq_true_eq] at h
    simp only [pyLt, decide_eq_false_iff_not, not_lt]
    exact h
  | inf => rfl
  | ninf => simp [pyGe] at h
  | nan => rfl

/-- C2: for a DialogCodeHook event whose age parses strictly between 0 and
65 and whose investment amount parses to a value at least 5000,
`validate_data` returns valid with no violated slot and no message, and
`recommend_portfolio` returns a Delegate response carrying the slots
unchanged. -/
theorem spec_c2_valid_delegate (ev : IntentRequest) (a amtS : String)
    (n : ℤ) (v : PyNum) (fn rl : Option String)
    (hn : pyIntOfString a = some n) (h0 : 0 < n) (h65 : n < 65)
    (hv : pyFloatOfString amtS = some v) (hge : pyGe v 5000 = true)
    (h1 : lookupSlot (get_slots ev) "firstName" = some fn)
    (h2 : lookupSlot (get_slots ev) "age" = some (some a))
    (h3 : lookupSlot (get_slots ev) "investmentAmount" = some (some amtS))
    (h4 : lookupSlot (get_slots ev) "riskLevel" = some rl)
    (hsrc : ev.invocationSource = "DialogCodeHook") :
    validate_data (some a) (some amtS) ev =
      build_validation_result true none none ∧
    recommend_portfolio ev = .ok (delegate ev.sessionAttributes (get_slots ev)) := by
  have hq0 : (0 : ℚ) < (n : ℚ) := by exact_mod_cast h0
  have hq65 : (n : ℚ) < 65 := by exact_mod_cast h65
  have hpi : parse_int a = .ratv (n : ℚ) := by simp [parse_int, hn]
  have hc1 : pyLe (parse_int a) 0 = false := by
    simp only [hpi, pyLe, decide_eq_false_iff_not, not_le]
    exact hq0
  have hc2 : pyGe (parse_int a) 65 = false := by
    simp only [hpi, pyGe, decide_eq_false_iff_not, not_le]
    exact hq65
  have hpf : parse_float amtS = v := by simp [parse_float, hv]
  have hlt : pyLt (parse_float amtS) 5000 = false := by
    rw [hpf]; exact pyLt_eq_false_of_pyGe v 5000 hge
  have hval : validate_data (some a) (some amtS) ev =
      build_validation_result true none none := by
    simp [validate_data, hc1, hc2, validate_amount, hlt]
  refine ⟨hval, ?_⟩
  rw [recommend_portfolio_eq_core ev fn (some a) (some amtS) rl h1 h2 h3 h4]
  simp [recommend_portfolio_core, hsrc, hval, build_validation_result]

/-- Witness for C2: age 30, amount 6000 on a concrete event. -/
theorem spec_c2_witness :
    validate_data (some "30") (some "6000")
      ⟨⟨"RecommendPortfolio",
        [("firstName", some "Jane"), ("age", some "30"),
         ("investmentAmount", some "6000"), ("riskLevel", some "Low")]⟩,
       "DialogCodeHook", [("k", "v")]⟩ =
      build_validation_result true none none ∧
    recommend_portfolio
      ⟨⟨"RecommendPortfolio",
        [("firstName", some "Jane"), ("age", some "30"),
         ("investmentAmount", some "6000"), ("riskLevel", some "Low")]⟩,
       "DialogCodeHook", [("k", "v")]⟩ =
      .ok (delegate [("k", "v")]
        [("firstName", some "Jane"), ("age", some "30"),
         ("investmentAmount", some "6000"), ("riskLevel", some "Low")]) :=
  spec_c2_valid_delegate
    ⟨⟨"RecommendPortfolio",
      [("firstName", some "Jane"), ("age", some "30"),
       ("investmentAmount", some "6000"), ("riskLevel", some "Low")]⟩,
     "DialogCodeHook", [("k", "v")]⟩
    "30" "6000" 30 (.ratv 6000) (some "Jane") (some "Low")
    (by decide) (by decide) (by decide) (by decide) (by decide)
    (by decide) (by decide) (by decide) (by decide) rfl

/-- C5: whenever validation fails during a DialogCodeHook invocation, the
handler returns an ElicitSlot response whose slotToElicit is the violated
slot and whose message is the violation message; in the returned slots
mapping the violated slot is cleared to null and every other slot value is
unchanged. -/
theorem spec_c5_invalid_elicit (ev : IntentRequest)
    (fn age amt rl : Option String)
    (h1 : lookupSlot (get_slots ev) "firstName" = some fn)
    (h2 : lookupSlot (get_slots ev) "age" = some age)
    (h3 : lookupSlot (get_slots ev) "investmentAmount" = some amt)
    (h4 : lookupSlot (get_slots ev) "riskLevel" = some rl)
    (hsrc : ev.invocationSource = "DialogCodeHook")
    (hinv : (validate_data age amt ev).isValid = false) :
    ∃ (vs : String) (msg : Message),
      (validate_data age amt ev).violatedSlot = some vs ∧
      (validate_data age amt ev).message = some msg ∧
      recommend_portfolio ev = .ok (elicit_slot ev.sessionAttributes
        ev.currentIntent.name (setSlot (get_slots ev) vs none) vs msg) ∧
      lookupSlot (setSlot (get_slots ev) vs none) vs = some none ∧
      ∀ k : String, k ≠ vs →
        lookupSlot (setSlot (get_slots ev) vs none) k =
          lookupSlot (get_slots ev) k := by
  rcases validate_data_invalid_shape age amt ev hinv with hv | hv
  · refine ⟨"age", { contentType := "PlainText", content := ageMessageContent },
      ?_, ?_, ?_, lookupSlot_setSlot_self _ _ _,
      fun k hk => lookupSlot_setSlot_ne _ _ _ _ hk⟩
    · rw [hv]; rfl
    · rw [hv]; rfl
    · rw [recommend_portfolio_eq_core ev fn age amt rl h1 h2 h3 h4]
      simp [recommend_portfolio_core, hsrc, hv, ageViolation,
        build_validation_result, elicit_slot]
  · refine ⟨"investmentAmount",
      { contentType := "PlainText", content := amountMessageContent },
      ?_, ?_, ?_, lookupSlot_setSlot_self _ _ _,
      fun k hk => lookupSlot_setSlot_ne _ _ _ _ hk⟩
    · rw [hv]; rfl
    · rw [hv]; rfl
    · rw [recommend_portfolio_eq_core ev fn age amt rl h1 h2 h3 h4]
      simp [recommend_portfolio_core, hsrc, hv, amountViolation,
        build_validation_result, elicit_slot]

/-- A concrete DialogCodeHook event with an out-of-range age, used to
instantiate C5 (end-to-end scenario 1 of the spec). -/
def evC5 : IntentRequest :=
  { currentIntent :=
      { name := "RecommendPortfolio",
        slots := [("firstName", some "Kim"), ("age", some "70"),
          ("investmentAmount", some "10000"), ("riskLevel", some "High")] },
    invocationSource := "DialogCodeHook",
    sessionAttributes := [("sess", "1")] }

/-- Witness for C5 at the age-70 event. -/
theorem spec_c5_witness :
    ∃ (vs : String) (msg : Message),
      (validate_data (some "70") (some "10000") evC5).violatedSlot = some vs ∧
      (validate_data (some "70") (some "10000") evC5).message = some msg ∧
      recommend_portfolio evC5 = .ok (elicit_slot evC5.sessionAttributes
        evC5.currentIntent.name (setSlot (get_slots evC5) vs none) vs msg) ∧
      lookupSlot (setSlot (get_slots evC5) vs none) vs = some none ∧
      ∀ k : String, k ≠ vs →
        lookupSlot (setSlot (get_slots evC5) vs none) k =
          lookupSlot (get_slots evC5) k :=
  spec_c5_invalid_elicit evC5 (some "Kim") (some "70") (some "10000")
    (some "High") (by decide) (by decide) (by decide) (by decide) rfl
    (by decide)

/-- C6: for every well-formed event whose invocationSource is not
`"DialogCodeHook"` (`"FulfillmentCodeHook"` or any unexpected third value),
`recommend_portfolio` returns a Close response with fulfillmentState
`"Fulfilled"` whose PlainText content contains the firstName slot value and
the recommendation computed from the riskLevel slot. -/
theorem spec_c6_fulfillment_close (ev : IntentRequest)
    (fn age amt rl : Option String)
    (h1 : lookupSlot (get_slots ev) "firstName" = some fn)
    (h2 : lookupSlot (get_slots ev) "age" = some age)
    (h3 : lookupSlot (get_slots ev) "investmentAmount" = some amt)
    (h4 : lookupSlot (get_slots ev) "riskLevel" = some rl)
    (hsrc : ev.invocationSource ≠ "DialogCodeHook") :
    recommend_portfolio ev = .ok (close ev.sessionAttributes "Fulfilled"
      { contentType := "PlainText",
        content := closeContent fn (get_initial_recommendation rl) }) ∧
    (∀ s : String, fn = some s → ∃ l r : String,
      closeContent fn (get_initial_recommendation rl) = l ++ (s ++ r)) ∧
    (∃ l r : String, closeContent fn (get_initial_recommendation rl) =
      l ++ (get_initial_recommendation rl ++ r)) := by
  refine ⟨?_, ?_, ?_⟩
  · rw [recommend_portfolio_eq_core ev fn age amt rl h1 h2 h3 h4]
    simp [recommend_portfolio_core, hsrc, close]
  · intro s hs
    subst hs
    refine ⟨"", ?_, ?_⟩
    · exact " thank you for your information;\n            based on the risk level you defined, my recommendation is to choose an investment portfolio with "
        ++ (get_initial_recommendation rl ++ "\n            ")
    · simp only [closeContent, pyFormatOpt]
      rw [String.append_assoc, String.append_assoc]
      rfl
  · refine ⟨pyFormatOpt fn ++
      " thank you for your information;\n            based on the risk level you defined, my recommendation is to choose an investment portfolio with ",
      "\n            ", ?_⟩
    simp only [closeContent]
    rw [String.append_assoc, String.append_assoc]

/-- A concrete fulfillment event (end-to-end scenario 4 of the spec). -/
def evC6 : IntentRequest :=
  { currentIntent :=
      { name := "RecommendPortfolio",
        slots := [("firstName", some "Jane"), ("age", some "30"),
          ("investmentAmount", some "10000"), ("riskLevel", some "High")] },
    invocationSource := "FulfillmentCodeHook",
    sessionAttributes := [("sess", "4")] }

/-- Witness for C6 at the scenario-4 event. -/
theorem spec_c6_witness :
    recommend_portfolio evC6 = .ok (close evC6.sessionAttributes "Fulfilled"
      { contentType := "PlainText",
        content := closeContent (some "Jane")
          (get_initial_recommendation (some "High")) }) ∧
    (∀ s : String, (some "Jane" : Option String) = some s → ∃ l r : String,
      closeContent (some "Jane") (get_initial_recommendation (some "High")) =
        l ++ (s ++ r)) ∧
    (∃ l r : String,
      closeContent (some "Jane") (get_initial_recommendation (some "High")) =
        l ++ (get_initial_recommendation (some "High") ++ r)) :=
  spec_c6_fulfillment_close evC6 (some "Jane") (some "30") (some "10000")
    (some "High") (by decide) (by decide) (by decide) (by decide)
    (by decide)

lemma recommend_portfolio_core_ok (ev : IntentRequest)
    (fn age amt rl : Option String) :
    ∃ r : Response, recommend_portfolio_core ev fn age amt rl = .ok r := by
  by_cases hsrc : ev.invocationSource = "DialogCodeHook"
  · by_cases hv : (validate_data age amt ev).isValid = false
    · rcases validate_data_invalid_shape age amt ev hv with hh | hh
      · refine ⟨elicit_slot ev.sessionAttributes ev.currentIntent.name
          (setSlot (get_slots ev) "age" none) "age"
          { contentType := "PlainText", content := ageMessageContent }, ?_⟩
        simp [recommend_portfolio_core, hsrc, hv, hh, ageViolation,
          build_validation_result]
      · refine ⟨elicit_slot ev.sessionAttributes ev.currentIntent.name
          (setSlot (get_slots ev) "investmentAmount" none) "investmentAmount"
          { contentType := "PlainText", content := amountMessageContent }, ?_⟩
        simp [recommend_portfolio_core, hsrc, hv, hh, amountViolation,
          build_validation_result]
    · exact ⟨delegate ev.sessionAttributes (get_slots ev),
        by simp [recommend_portfolio_core, hsrc, hv]⟩
  · exact ⟨close ev.sessionAttributes "Fulfilled"
      { contentType := "PlainText",
        content := closeContent fn (get_initial_recommendation rl) },
      by simp [recommend_portfolio_core, hsrc]⟩

lemma recommend_portfolio_cases (ev : IntentRequest) :
    (∃ k : String, recommend_portfolio ev = .error (.keyError k)) ∨
    (∃ fn age amt rl : Option String,
      recommend_portfolio ev = recommend_portfolio_core ev fn age amt rl) := by
  cases hf : lookupSlot (get_slots ev) "firstName" with
  | none => exact Or.inl ⟨"firstName", by simp [recommend_portfolio, dictGet, hf]⟩
  | some fn =>
    cases ha : lookupSlot (get_slots ev) "age" with
    | none => exact Or.inl ⟨"age", by simp [recommend_portfolio, dictGet, hf, ha]⟩
    | some age =>
      cases hi : lookupSlot (get_slots ev) "investmentAmount" with
      | none =>
        exact Or.inl ⟨"investmentAmount",
          by simp [recommend_portfolio, dictGet, hf, ha, hi]⟩
      | some amt =>
        cases hr : lookupSlot (get_slots ev) "riskLevel" with
        | none =>
          exact Or.inl ⟨"riskLevel",
            by simp [recommend_portfolio, dictGet, hf, ha, hi, hr]⟩
        | some rl =>
          exact Or.inr ⟨fn, age, amt, rl,
            recommend_portfolio_eq_core ev fn age amt rl hf ha hi hr⟩

lemma recommend_portfolio_core_session (ev : IntentRequest)
    (fn age amt rl : Option String) (r : Response)
    (h : recommend_portfolio_core ev fn age amt rl = .ok r) :
    r.sessionAttributes = ev.sessionAttributes := by
  unfold recommend_portfolio_core at h
  repeat split at h
  all_goals first
    | exact Except.noConfusion h
    | (injection h with h; subst h; rfl)

lemma recommend_portfolio_core_close_state (ev : IntentRequest)
    (fn age amt rl : Option String) (r : Response) (st : String)
    (msg : Message) (h : recommend_portfolio_core ev fn age amt rl = .ok r)
    (hda : r.dialogAction = DialogAction.closeAction st msg) :
    st = "Fulfilled" := by
  unfold recommend_portfolio_core at h
  repeat split at h
  all_goals first
    | exact Except.noConfusion h
    | (injection h with h; subst h; cases hda <;> rfl)

/-- C7: `dispatch` routes exactly the intent name `"RecommendPortfolio"` to
the recommend-portfolio handler, and raises the unsupported-intent error
for every other name; over events of the documented shape (all four slot
keys present, possibly with null values), `lambda_handler` returns normally
if and only if the intent name is `"RecommendPortfolio"`. -/
theorem spec_c7_dispatch_exact :
    (∀ ev : IntentRequest, ev.currentIntent.name = "RecommendPortfolio" →
      dispatch ev = recommend_portfolio ev) ∧
    (∀ ev : IntentRequest, ev.currentIntent.name ≠ "RecommendPortfolio" →
      dispatch ev = .error (.exception
        ("Intent with name " ++ ev.currentIntent.name ++ " not supported"))) ∧
    (∀ (ev : IntentRequest) (ctx : Unit) (r : Response),
      lambda_handler ev ctx = .ok r →
      ev.currentIntent.name = "RecommendPortfolio") ∧
    (∀ (ev : IntentRequest) (ctx : Unit) (fn age amt rl : Option String),
      ev.currentIntent.name = "RecommendPortfolio" →
      lookupSlot (get_slots ev) "firstName" = some fn →
      lookupSlot (get_slots ev) "age" = some age →
      lookupSlot (get_slots ev) "investmentAmount" = some amt →
      lookupSlot (get_slots ev) "riskLevel" = some rl →
      ∃ r : Response, lambda_handler ev ctx = .ok r) := by
  refine ⟨?_, ?_, ?_, ?_⟩
  · intro ev h
    simp [dispatch, h]
  · intro ev h
    simp [dispatch, h]
  · intro ev ctx r h
    by_contra hname
    simp [lambda_handler, dispatch, hname] at h
  · intro ev ctx fn age amt rl hname h1 h2 h3 h4
    obtain ⟨r, hr⟩ := recommend_portfolio_core_ok ev fn age amt rl
    refine ⟨r, ?_⟩
    rw [lambda_handler, dispatch]
    simp only [hname, if_pos]
    rw [recommend_portfolio_eq_core ev fn age amt rl h1 h2 h3 h4, hr]

/-- An event with an unsupported intent name. -/
def evBadIntent : IntentRequest :=
  { currentIntent := { name := "GetWeather", slots := [] },
    invocationSource := "FulfillmentCodeHook",
    sessionAttributes := [] }

/-- Witness for C7: routing at the scenario-4 event and the unsupported
intent error at a concrete bad name. -/
theorem spec_c7_witness :
    dispatch evC6 = recommend_portfolio evC6 ∧
    dispatch evBadIntent =
      .error (.exception "Intent with name GetWeather not supported") ∧
    evC6.currentIntent.name = "RecommendPortfolio" ∧
    ∃ r : Response, lambda_handler evC6 () = .ok r :=
  ⟨spec_c7_dispatch_exact.1 evC6 rfl,
   spec_c7_dispatch_exact.2.1 evBadIntent (by decide),
   spec_c7_dispatch_exact.2.2.1 evC6 ()
     (close evC6.sessionAttributes "Fulfilled"
       { contentType := "PlainText",
         content := closeContent (some "Jane")
           (get_initial_recommendation (some "High")) })
     (by rfl),
   spec_c7_dispatch_exact.2.2.2 evC6 () (some "Jane") (some "30")
     (some "10000") (some "High") rfl (by decide) (by decide) (by decide)
     (by decide)⟩

/-- C8: every response the handler returns, whether ElicitSlot, Delegate or
Close, carries the sessionAttributes of the input event unmodified; the
same holds through `lambda_handler`. -/
theorem spec_c8_session_passthrough :
    (∀ (ev : IntentRequest) (r : Response),
      recommend_portfolio ev = .ok r →
      r.sessionAttributes = ev.sessionAttributes) ∧
    (∀ (ev : IntentRequest) (ctx : Unit) (r : Response),
      lambda_handler ev ctx = .ok r →
      r.sessionAttributes = ev.sessionAttributes) := by
  have hmain : ∀ (ev : IntentRequest) (r : Response),
      recommend_portfolio ev = .ok r →
      r.sessionAttributes = ev.sessionAttributes := by
    intro ev r h
    rcases recommend_portfolio_cases ev with ⟨k, hk⟩ | ⟨fn, age, amt, rl, hcore⟩
    · rw [hk] at h
      exact Except.noConfusion h
    · rw [hcore] at h
      exact recommend_portfolio_core_session ev fn age amt rl r h
  refine ⟨hmain, ?_⟩
  intro ev ctx r h
  rw [lambda_handler, dispatch] at h
  by_cases hname : ev.currentIntent.name = "RecommendPortfolio"
  · rw [if_pos hname] at h
    exact hmain ev r h
  · rw [if_neg hname] at h
    exact Except.noConfusion h

/-- Witness for C8 at the scenario-4 event. -/
theorem spec_c8_witness :
    (close evC6.sessionAttributes "Fulfilled"
      { contentType := "PlainText",
        content := closeContent (some "Jane")
          (get_initial_recommendation (some "High")) }).sessionAttributes =
      evC6.sessionAttributes :=
  spec_c8_session_passthrough.1 evC6
    (close evC6.sessionAttributes "Fulfilled"
      { contentType := "PlainText",
        content := closeContent (some "Jane")
          (get_initial_recommendation (some "High")) })
    (by rfl)

/-- C9 (implicit): every Close response any execution of the handler
produces has fulfillmentState `"Fulfilled"`; the `"Failed"` state the Close
shape admits is unreachable. -/
theorem spec_c9_close_always_fulfilled (ev : IntentRequest) (r : Response)
    (st : String) (msg : Message)
    (h : recommend_portfolio ev = .ok r)
    (hda : r.dialogAction = DialogAction.closeAction st msg) :
    st = "Fulfilled" := by
  rcases recommend_portfolio_cases ev with ⟨k, hk⟩ | ⟨fn, age, amt, rl, hcore⟩
  · rw [hk] at h
    exact Except.noConfusion h
  · rw [hcore] at h
    exact recommend_portfolio_core_close_state ev fn age amt rl r st msg h hda

/-- Witness for C9 at the scenario-4 event. -/
theorem spec_c9_witness : ("Fulfilled" : String) = "Fulfilled" :=
  spec_c9_close_always_fulfilled evC6
    (close evC6.sessionAttributes "Fulfilled"
      { contentType := "PlainText",
        content := closeContent (some "Jane")
          (get_initial_recommendation (some "High")) })
    "Fulfilled"
    { contentType := "PlainText",
      content := closeContent (some "Jane")
        (get_initial_recommendation (some "High")) }
    (by rfl) (by rfl)

/-- C10 (implicit): `recommend_portfolio` requires all four slot keys to be
present in the slots mapping (their values may be null): if any of the four
keys is absent the handler raises a KeyError for one of them instead of
returning a dialog-action response, while with all four keys present it
returns normally. -/
theorem spec_c10_missing_slot_key :
    (∀ ev : IntentRequest,
      (lookupSlot (get_slots ev) "firstName" = none ∨
        lookupSlot (get_slots ev) "age" = none ∨
        lookupSlot (get_slots ev) "investmentAmount" = none ∨
        lookupSlot (get_slots ev) "riskLevel" = none) →
      ∃ k : String,
        k ∈ (["firstName", "age", "investmentAmount",
          "riskLevel"] : List String) ∧
        lookupSlot (get_slots ev) k = none ∧
        recommend_portfolio ev = .error (.keyError k)) ∧
    (∀ (ev : IntentRequest) (fn age amt rl : Option String),
      lookupSlot (get_slots ev) "firstName" = some fn →
      lookupSlot (get_slots ev) "age" = some age →
      lookupSlot (get_slots ev) "investmentAmount" = some amt →
      lookupSlot (get_slots ev) "riskLevel" = some rl →
      ∃ r : Response, recommend_portfolio ev = .ok r) := by
  refine ⟨?_, ?_⟩
  · intro ev hmiss
    cases hf : lookupSlot (get_slots ev) "firstName" with
    | none =>
      exact ⟨"firstName", by simp, hf,
        by simp [recommend_portfolio, dictGet, hf]⟩
    | some fn =>
      cases ha : lookupSlot (get_slots ev) "age" with
      | none =>
        exact ⟨"age", by simp, ha,
          by simp [recommend_portfolio, dictGet, hf, ha]⟩
      | some age =>
        cases hi : lookupSlot (get_slots ev) "investmentAmount" with
        | none =>
          exact ⟨"investmentAmount", by simp, hi,
            by simp [recommend_portfolio, dictGet, hf, ha, hi]⟩
        | some amt =>
          cases hr : lookupSlot (get_slots ev) "riskLevel" with
          | none =>
            exact ⟨"riskLevel", by simp, hr,
              by simp [recommend_portfolio, dictGet, hf, ha, hi, hr]⟩
          | some rl =>
            exfalso
            rcases hmiss with h | h | h | h <;> simp_all
  · intro ev fn age amt rl h1 h2 h3 h4
    obtain ⟨r, hr⟩ := recommend_portfolio_core_ok ev fn age amt rl
    exact ⟨r, by
      rw [recommend_portfolio_eq_core ev fn age amt rl h1 h2 h3 h4, hr]⟩

/-- An event of intent RecommendPortfolio whose slots mapping lacks the
`age` key. -/
def evMissingAge : IntentRequest :=
  { currentIntent :=
      { name := "RecommendPortfolio",
        slots := [("firstName", some "Ada"), ("investmentAmount", some "9000"),
          ("riskLevel", some "Low")] },
    invocationSource := "DialogCodeHook",
    sessionAttributes := [] }

/-- An event whose four slot keys are all present with null values. -/
def evNullSlots : IntentRequest :=
  { currentIntent :=
      { name := "RecommendPortfolio",
        slots := [("firstName", none), ("age", none),
          ("investmentAmount", none), ("riskLevel", none)] },
    invocationSource := "DialogCodeHook",
    sessionAttributes := [] }

/-- Witness for C10: a missing `age` key raises a KeyError; all keys
present with null values return normally. -/
theorem spec_c10_witness :
    (∃ k : String,
      k ∈ (["firstName", "age", "investmentAmount",
        "riskLevel"] : List String) ∧
      lookupSlot (get_slots evMissingAge) k = none ∧
      recommend_portfolio evMissingAge = .error (.keyError k)) ∧
    ∃ r : Response, recommend_portfolio evNullSlots = .ok r :=
  ⟨spec_c10_missing_slot_key.1 evMissingAge (Or.inr (Or.inl (by decide))),
   spec_c10_missing_slot_key.2 evNullSlots none none none none
     (by decide) (by decide) (by decide) (by decide)⟩
